import Mathlib

/-
Verification of the ForexFlow decision engine.

This file gives a shallow embedding of the reasoning core of the repository
(backend/app): the CSP-style risk solver (mcp_tools/risk_guard.py), the
beam-search trade optimizer (mcp_tools/opti_trade.py), the Bayesian trend
forecaster (services/probabilistic/bayesian_forecaster.py) and the feature
extractor (services/probabilistic/feature_extraction.py), together with
theorems settling the stated properties of those components.

Numeric conventions: Python float arithmetic is embedded as exact rational
arithmetic (ℚ) where the code is pure arithmetic and comparisons, and as real
arithmetic (ℝ) where transcendental functions (exp, tanh) appear.  Fallible
code (unguarded division) is embedded with Option.
-/

/- Trader profiles: models TraderProfile (models/trade.py) together with the
fixed parameter records Settings.TRADER_PROFILES (core/config.py).  The
volatility_tolerance label is a display string never read by the solver or
the optimizer and is omitted. -/

inductive TraderProfileT where
  | conservative
  | balanced
  | aggressive
deriving DecidableEq

structure ProfileConfig where
  max_risk_per_trade : ℚ
  max_leverage : ℚ
  profit_target_multiplier : ℚ
  max_drawdown : ℚ
deriving DecidableEq

def TRADER_PROFILES : TraderProfileT → ProfileConfig
  | .conservative => { max_risk_per_trade := 1/100, max_leverage := 2,
                       profit_target_multiplier := 3/2, max_drawdown := 1/20 }
  | .balanced     => { max_risk_per_trade := 1/50, max_leverage := 5,
                       profit_target_multiplier := 2, max_drawdown := 1/10 }
  | .aggressive   => { max_risk_per_trade := 1/20, max_leverage := 10,
                       profit_target_multiplier := 3, max_drawdown := 1/5 }

namespace RiskGuard

/- Embedding of RiskGuardTool (mcp_tools/risk_guard.py).  The solver reads
only portfolio.capital and market_state.current_price; the trend forecast is
passed in by the caller but never used by the closures of _define_constraints
or by _solve_csp, so it does not appear here. -/

/- A full variable assignment for the four CSP variables.  The Python code
uses a dict; _solve_csp always builds assignments with all four keys, so the
"key missing" early-true guards of _define_constraints are vacuous. -/
structure Assignment where
  leverage : ℚ
  stop_loss_pct : ℚ
  take_profit_pct : ℚ
  position_size : ℚ
deriving DecidableEq

/- Variable domains, from _initialize_variables. -/
structure Domains where
  position_size : ℚ × ℚ
  stop_loss_pct : ℚ × ℚ
  take_profit_pct : ℚ × ℚ
  leverage : ℚ × ℚ

def initialize_variables (capital : ℚ) (cfg : ProfileConfig) : Domains :=
  { position_size := (100, capital * (1/2))
    stop_loss_pct := (1/200, 1/20)
    take_profit_pct := (1/100, 3/20)
    leverage := (1, cfg.max_leverage) }

/- The four constraints of _define_constraints, evaluated on a full
assignment (risk cap, leverage cap, risk-reward, margin/capital
preservation), exactly as checked by _is_valid_assignment. -/
def constraints_ok (capital : ℚ) (cfg : ProfileConfig) (a : Assignment) : Bool :=
  decide (a.position_size * a.stop_loss_pct ≤ capital * cfg.max_risk_per_trade) &&
  decide (a.leverage ≤ cfg.max_leverage) &&
  decide (a.take_profit_pct ≥ a.stop_loss_pct * cfg.profit_target_multiplier) &&
  decide (a.position_size / a.leverage ≤ capital * (9/10))

/- Candidate grids of _solve_csp. -/
def sl_candidates : List ℚ := [1/200, 1/100, 1/50, 1/20]

def tp_multipliers : List ℚ := [3/2, 2, 3]

def pos_candidates : List ℚ := [100000, 50000, 10000, 5000, 1000, 100]

/- leverage_candidates = sorted(set([max, max/2, 1.0]), reverse=True). -/
def leverage_candidates (maxLev : ℚ) : List ℚ :=
  ([maxLev, maxLev / 2, 1].dedup).insertionSort (fun a b => b ≤ a)

/- The inner position loop: positions are tried in the fixed descending
order, skipping candidates outside the domain, and the loop breaks at the
first candidate satisfying every constraint. -/
def find_position (dom : Domains) (capital : ℚ) (cfg : ProfileConfig)
    (lev sl tp : ℚ) : Option ℚ :=
  pos_candidates.find? (fun pos =>
    decide (dom.position_size.1 ≤ pos) && decide (pos ≤ dom.position_size.2) &&
    constraints_ok capital cfg
      { leverage := lev, stop_loss_pct := sl, take_profit_pct := tp,
        position_size := pos })

/- One step of the nested loops of _solve_csp for a fixed
(leverage, stop-loss, take-profit-multiplier) combination: domain checks
with `continue`, then the position search, then the best-score update
(strict improvement over the running best, initialized to -1). -/
def csp_step (dom : Domains) (capital : ℚ) (cfg : ProfileConfig)
    (acc : Option Assignment × ℚ) (c : ℚ × ℚ × ℚ) : Option Assignment × ℚ :=
  let lev := c.1
  let sl := c.2.1
  let m := c.2.2
  if dom.stop_loss_pct.1 ≤ sl ∧ sl ≤ dom.stop_loss_pct.2 then
    let tp := sl * m
    if dom.take_profit_pct.1 ≤ tp ∧ tp ≤ dom.take_profit_pct.2 then
      match find_position dom capital cfg lev sl tp with
      | none => acc
      | some pos =>
          if pos / lev > acc.2 then
            (some { leverage := lev, stop_loss_pct := sl, take_profit_pct := tp,
                    position_size := pos }, pos / lev)
          else acc
    else acc
  else acc

/- The combinations enumerated by the nested loops, in loop order. -/
def combo_list (dom : Domains) : List (ℚ × ℚ × ℚ) :=
  (leverage_candidates dom.leverage.2).flatMap (fun lev =>
    sl_candidates.flatMap (fun sl =>
      tp_multipliers.map (fun m => (lev, sl, m))))

def solve_csp (dom : Domains) (capital : ℚ) (cfg : ProfileConfig) :
    Option Assignment :=
  ((combo_list dom).foldl (csp_step dom capital cfg) (none, -1)).1

/- RiskConstraints (models/trade.py), the solver's output record. -/
structure RiskConstraints where
  max_position_size : ℚ
  stop_loss : ℚ
  take_profit : ℚ
  leverage : ℚ
  risk_amount : ℚ
  is_valid : Bool
  constraint_violations : List String
deriving DecidableEq

/- _build_risk_constraints: absolute price levels are derived long-biased. -/
def build_risk_constraints (sol : Assignment) (current_price : ℚ) :
    RiskConstraints :=
  { max_position_size := sol.position_size
    stop_loss := current_price * (1 - sol.stop_loss_pct)
    take_profit := current_price * (1 + sol.take_profit_pct)
    leverage := sol.leverage
    risk_amount := sol.position_size * sol.stop_loss_pct
    is_valid := true
    constraint_violations := [] }

/- validate_and_optimize, restricted to the inputs it actually reads. -/
def validate_and_optimize (current_price capital : ℚ)
    (profile : TraderProfileT) : RiskConstraints :=
  let cfg := TRADER_PROFILES profile
  let dom := initialize_variables capital cfg
  match solve_csp dom capital cfg with
  | none =>
      { max_position_size := 0
        stop_loss := current_price
        take_profit := current_price
        leverage := 1
        risk_amount := 0
        is_valid := false
        constraint_violations := ["No valid solution satisfying all constraints"] }
  | some sol => build_risk_constraints sol current_price

/- Soundness predicate: what is known of any assignment the solver returns. -/
def SoundA (dom : Domains) (capital : ℚ) (cfg : ProfileConfig)
    (a : Assignment) : Prop :=
  constraints_ok capital cfg a = true ∧
  a.position_size ∈ pos_candidates ∧
  dom.position_size.1 ≤ a.position_size ∧
  a.position_size ≤ dom.position_size.2 ∧
  a.leverage ∈ leverage_candidates dom.leverage.2 ∧
  a.stop_loss_pct ∈ sl_candidates ∧
  (∃ m ∈ tp_multipliers, a.take_profit_pct = a.stop_loss_pct * m)

/- Invariant carried through the fold of _solve_csp. -/
def SoundAcc (dom : Domains) (capital : ℚ) (cfg : ProfileConfig)
    (acc : Option Assignment × ℚ) : Prop :=
  acc = (none, -1) ∨
  ∃ a, acc.1 = some a ∧ acc.2 = a.position_size / a.leverage ∧
    SoundA dom capital cfg a

def ComboMem (dom : Domains) (c : ℚ × ℚ × ℚ) : Prop :=
  c.1 ∈ leverage_candidates dom.leverage.2 ∧
  c.2.1 ∈ sl_candidates ∧ c.2.2 ∈ tp_multipliers

lemma mem_combo_list {dom : Domains} {c : ℚ × ℚ × ℚ}
    (h : c ∈ combo_list dom) : ComboMem dom c := by
  rcases List.mem_flatMap.1 h with ⟨lev, hlev, h⟩
  rcases List.mem_flatMap.1 h with ⟨sl, hsl, h⟩
  rcases List.mem_map.1 h with ⟨m, hm, rfl⟩
  exact ⟨hlev, hsl, hm⟩

lemma find_position_props {dom : Domains} {capital : ℚ} {cfg : ProfileConfig}
    {lev sl tp pos : ℚ}
    (h : find_position dom capital cfg lev sl tp = some pos) :
    pos ∈ pos_candidates ∧
    dom.position_size.1 ≤ pos ∧ pos ≤ dom.position_size.2 ∧
    constraints_ok capital cfg
      { leverage := lev, stop_loss_pct := sl, take_profit_pct := tp,
        position_size := pos } = true := by
  have hmem := List.mem_of_find?_eq_some h
  have hp := List.find?_some h
  simp only [Bool.and_eq_true, decide_eq_true_eq] at hp
  exact ⟨hmem, hp.1.1, hp.1.2, hp.2⟩

lemma csp_step_sound {dom : Domains} {capital : ℚ} {cfg : ProfileConfig}
    {acc : Option Assignment × ℚ} {c : ℚ × ℚ × ℚ}
    (hc : ComboMem dom c) (h : SoundAcc dom capital cfg acc) :
    SoundAcc dom capital cfg (csp_step dom capital cfg acc c) := by
  unfold csp_step
  dsimp only
  split_ifs with h1 h2
  · rcases hfp : find_position dom capital cfg c.1 c.2.1 (c.2.1 * c.2.2) with _ | pos
    · simpa [hfp] using h
    · obtain ⟨hmem, hd1, hd2, hok⟩ := find_position_props hfp
      simp only [hfp]
      split_ifs with himp
      · right
        exact ⟨_, rfl, rfl, hok, hmem, hd1, hd2, hc.1, hc.2.1,
          ⟨c.2.2, hc.2.2, rfl⟩⟩
      · exact h
  · exact h
  · exact h

lemma csp_step_score_le {dom : Domains} {capital : ℚ} {cfg : ProfileConfig}
    (acc : Option Assignment × ℚ) (c : ℚ × ℚ × ℚ) :
    acc.2 ≤ (csp_step dom capital cfg acc c).2 := by
  unfold csp_step
  dsimp only
  split_ifs with h1 h2
  · rcases hfp : find_position dom capital cfg c.1 c.2.1 (c.2.1 * c.2.2) with _ | pos
    · simp [hfp]
    · simp only [hfp]
      split_ifs with himp
      · exact le_of_lt himp
      · exact le_refl _
  · exact le_refl _
  · exact le_refl _

lemma foldl_csp_score_le {dom : Domains} {capital : ℚ} {cfg : ProfileConfig}
    (l : List (ℚ × ℚ × ℚ)) (acc : Option Assignment × ℚ) :
    acc.2 ≤ (l.foldl (csp_step dom capital cfg) acc).2 := by
  induction l generalizing acc with
  | nil => exact le_refl _
  | cons c t ih =>
      exact le_trans (csp_step_score_le acc c) (ih _)

lemma foldl_csp_sound {dom : Domains} {capital : ℚ} {cfg : ProfileConfig}
    {l : List (ℚ × ℚ × ℚ)} (hl : ∀ c ∈ l, ComboMem dom c)
    {acc : Option Assignment × ℚ} (h : SoundAcc dom capital cfg acc) :
    SoundAcc dom capital cfg (l.foldl (csp_step dom capital cfg) acc) := by
  induction l generalizing acc with
  | nil => exact h
  | cons c t ih =>
      exact ih (fun x hx => hl x (List.mem_cons_of_mem _ hx))
        (csp_step_sound (hl c (List.mem_cons_self _ _)) h)

lemma csp_step_reaches {dom : Domains} {capital : ℚ} {cfg : ProfileConfig}
    (acc : Option Assignment × ℚ) {c : ℚ × ℚ × ℚ} {pos : ℚ}
    (h1 : dom.stop_loss_pct.1 ≤ c.2.1 ∧ c.2.1 ≤ dom.stop_loss_pct.2)
    (h2 : dom.take_profit_pct.1 ≤ c.2.1 * c.2.2 ∧
          c.2.1 * c.2.2 ≤ dom.take_profit_pct.2)
    (hfp : find_position dom capital cfg c.1 c.2.1 (c.2.1 * c.2.2) = some pos) :
    pos / c.1 ≤ (csp_step dom capital cfg acc c).2 := by
  unfold csp_step
  dsimp only
  rw [if_pos h1, if_pos h2, hfp]
  dsimp only
  split_ifs with himp
  · exact le_refl _
  · exact le_of_not_lt himp

lemma foldl_csp_reaches {dom : Domains} {capital : ℚ} {cfg : ProfileConfig}
    {l : List (ℚ × ℚ × ℚ)} {c : ℚ × ℚ × ℚ} {pos : ℚ}
    (hc : c ∈ l)
    (h1 : dom.stop_loss_pct.1 ≤ c.2.1 ∧ c.2.1 ≤ dom.stop_loss_pct.2)
    (h2 : dom.take_profit_pct.1 ≤ c.2.1 * c.2.2 ∧
          c.2.1 * c.2.2 ≤ dom.take_profit_pct.2)
    (hfp : find_position dom capital cfg c.1 c.2.1 (c.2.1 * c.2.2) = some pos)
    (acc : Option Assignment × ℚ) :
    pos / c.1 ≤ (l.foldl (csp_step dom capital cfg) acc).2 := by
  obtain ⟨s, t, rfl⟩ := List.append_of_mem hc
  rw [List.foldl_append, List.foldl_cons]
  exact le_trans (csp_step_reaches _ h1 h2 hfp) (foldl_csp_score_le _ _)

/- Soundness of the solver: any returned assignment passed every constraint
and was drawn from the candidate grids. -/
theorem solve_csp_sound {dom : Domains} {capital : ℚ} {cfg : ProfileConfig}
    {a : Assignment} (h : solve_csp dom capital cfg = some a) :
    SoundA dom capital cfg a := by
  have hs := foldl_csp_sound (fun c hc => mem_combo_list hc)
    (Or.inl rfl : SoundAcc dom capital cfg (none, -1))
  unfold solve_csp at h
  rcases hs with heq | ⟨b, hb1, _, hb3⟩
  · rw [heq] at h; exact absurd h (by simp)
  · rw [hb1] at h
    exact Option.some_injective _ h ▸ hb3

/- Optimality direction: if some enumerated combination admits a valid
position, the solver returns an assignment whose score (position / leverage)
is at least that combination's. -/
theorem solve_csp_ge {dom : Domains} {capital : ℚ} {cfg : ProfileConfig}
    {c : ℚ × ℚ × ℚ} {pos : ℚ}
    (hc : c ∈ combo_list dom)
    (h1 : dom.stop_loss_pct.1 ≤ c.2.1 ∧ c.2.1 ≤ dom.stop_loss_pct.2)
    (h2 : dom.take_profit_pct.1 ≤ c.2.1 * c.2.2 ∧
          c.2.1 * c.2.2 ≤ dom.take_profit_pct.2)
    (hfp : find_position dom capital cfg c.1 c.2.1 (c.2.1 * c.2.2) = some pos)
    (hpos : -1 < pos / c.1) :
    ∃ a, solve_csp dom capital cfg = some a ∧
      pos / c.1 ≤ a.position_size / a.leverage := by
  have hreach := foldl_csp_reaches hc h1 h2 hfp (none, -1)
  have hs := foldl_csp_sound (fun x hx => mem_combo_list hx)
    (Or.inl rfl : SoundAcc dom capital cfg (none, -1))
  rcases hs with heq | ⟨b, hb1, hb2, _⟩
  · rw [heq] at hreach
    exact absurd (lt_of_lt_of_le hpos hreach) (by norm_num)
  · exact ⟨b, by unfold solve_csp; rw [hb1], hb2 ▸ hreach⟩

lemma sl_candidate_facts {x : ℚ} (hx : x ∈ sl_candidates) :
    1/200 ≤ x ∧ x ≤ 1/20 ∧ 0 < x ∧ 1/100 ≤ x * 3 ∧ x * 3 ≤ 3/20 := by
  simp only [sl_candidates] at hx
  fin_cases hx <;> norm_num

lemma leverage_candidates_eval :
    leverage_candidates (TRADER_PROFILES TraderProfileT.conservative).max_leverage
      = [2, 1] ∧
    leverage_candidates (TRADER_PROFILES TraderProfileT.balanced).max_leverage
      = [5, 5/2, 1] ∧
    leverage_candidates (TRADER_PROFILES TraderProfileT.aggressive).max_leverage
      = [10, 5, 1] := by
  refine ⟨?_, ?_, ?_⟩ <;>
    norm_num [TRADER_PROFILES, leverage_candidates, List.dedup_cons_of_mem,
      List.dedup_cons_of_not_mem, List.insertionSort, List.orderedInsert]

lemma one_le_of_mem_leverage_candidates (P : TraderProfileT) {x : ℚ}
    (hx : x ∈ leverage_candidates (TRADER_PROFILES P).max_leverage) : 1 ≤ x := by
  obtain ⟨h1, h2, h3⟩ := leverage_candidates_eval
  cases P
  · rw [h1] at hx
    fin_cases hx <;> norm_num
  · rw [h2] at hx
    fin_cases hx <;> norm_num
  · rw [h3] at hx
    fin_cases hx <;> norm_num

lemma one_mem_leverage_candidates (P : TraderProfileT) :
    (1 : ℚ) ∈ leverage_candidates (TRADER_PROFILES P).max_leverage := by
  obtain ⟨h1, h2, h3⟩ := leverage_candidates_eval
  cases P
  · rw [h1]; norm_num
  · rw [h2]; norm_num
  · rw [h3]; norm_num

lemma profile_multiplier_le_three (P : TraderProfileT) :
    (TRADER_PROFILES P).profit_target_multiplier ≤ 3 := by
  cases P <;> norm_num [TRADER_PROFILES]

lemma one_le_profile_max_leverage (P : TraderProfileT) :
    (1 : ℚ) ≤ (TRADER_PROFILES P).max_leverage := by
  cases P <;> norm_num [TRADER_PROFILES]

lemma find?_max_of_pairwise_ge {l : List ℚ} {p : ℚ → Bool} {x y : ℚ}
    (hps : l.Pairwise (fun a b => b ≤ a)) (hf : l.find? p = some x)
    (hy : y ∈ l) (hpy : p y = true) : y ≤ x := by
  induction l with
  | nil => cases hy
  | cons a t ih =>
      rcases List.pairwise_cons.1 hps with ⟨ha, ht⟩
      by_cases hpa : p a
      · rw [List.find?_cons_of_pos _ hpa] at hf
        have hax : a = x := by injection hf
        rcases List.mem_cons.1 hy with rfl | hyt
        · exact le_of_eq hax
        · exact hax ▸ ha y hyt
      · rw [List.find?_cons_of_neg _ hpa] at hf
        rcases List.mem_cons.1 hy with rfl | hyt
        · exact absurd hpy hpa
        · exact ih ht hf hyt

lemma pos_candidates_pairwise :
    pos_candidates.Pairwise (fun a b => b ≤ a) := by
  simp only [pos_candidates, List.pairwise_cons, List.mem_cons]
  norm_num

lemma validate_eq_of_none {price capital : ℚ} {profile : TraderProfileT}
    (h : solve_csp (initialize_variables capital (TRADER_PROFILES profile))
        capital (TRADER_PROFILES profile) = none) :
    validate_and_optimize price capital profile =
      { max_position_size := 0, stop_loss := price, take_profit := price,
        leverage := 1, risk_amount := 0, is_valid := false,
        constraint_violations :=
          ["No valid solution satisfying all constraints"] } := by
  unfold validate_and_optimize
  dsimp only
  rw [h]

lemma validate_eq_of_some {price capital : ℚ} {profile : TraderProfileT}
    {sol : Assignment}
    (h : solve_csp (initialize_variables capital (TRADER_PROFILES profile))
        capital (TRADER_PROFILES profile) = some sol) :
    validate_and_optimize price capital profile =
      build_risk_constraints sol price := by
  unfold validate_and_optimize
  dsimp only
  rw [h]

/- A concrete valid run used by the witnesses: price 1, capital 10000,
conservative profile.  Validity is established through the optimality lemma
rather than kernel evaluation. -/
lemma conservative_10000_is_valid :
    (validate_and_optimize 1 10000 TraderProfileT.conservative).is_valid
      = true := by
  have hcombo : ((2 : ℚ), (1/200 : ℚ), (2 : ℚ)) ∈
      combo_list (initialize_variables 10000
        (TRADER_PROFILES TraderProfileT.conservative)) := by
    refine List.mem_flatMap.2 ⟨2, ?_, ?_⟩
    · have h1 := leverage_candidates_eval.1
      simp only [initialize_variables]
      rw [h1]
      norm_num
    · exact List.mem_flatMap.2 ⟨1/200, by norm_num [sl_candidates],
        List.mem_map.2 ⟨2, by norm_num [tp_multipliers], rfl⟩⟩
  have hvalid : (fun pos =>
      decide ((initialize_variables 10000
          (TRADER_PROFILES TraderProfileT.conservative)).position_size.1 ≤ pos) &&
      decide (pos ≤ (initialize_variables 10000
          (TRADER_PROFILES TraderProfileT.conservative)).position_size.2) &&
      constraints_ok 10000 (TRADER_PROFILES TraderProfileT.conservative)
        { leverage := 2, stop_loss_pct := 1/200, take_profit_pct := 1/200 * 2,
          position_size := pos }) 5000 = true := by
    simp only [initialize_variables, constraints_ok, Bool.and_eq_true,
      decide_eq_true_eq, TRADER_PROFILES]
    norm_num
  have hfsome : ∃ pos, find_position
      (initialize_variables 10000 (TRADER_PROFILES TraderProfileT.conservative))
      10000 (TRADER_PROFILES TraderProfileT.conservative) 2 (1/200)
      (1/200 * 2) = some pos := by
    have hiss : (find_position
        (initialize_variables 10000 (TRADER_PROFILES TraderProfileT.conservative))
        10000 (TRADER_PROFILES TraderProfileT.conservative) 2 (1/200)
        (1/200 * 2)).isSome = true :=
      List.find?_isSome.2 ⟨(5000 : ℚ), by norm_num [pos_candidates], hvalid⟩
    exact Option.isSome_iff_exists.1 hiss
  obtain ⟨pos, hfp⟩ := hfsome
  obtain ⟨_, hple, _, _⟩ := find_position_props hfp
  have hple' : (100 : ℚ) ≤ pos := by
    simpa [initialize_variables] using hple
  obtain ⟨a, hsol, _⟩ := solve_csp_ge hcombo
    (by simp only [initialize_variables]; norm_num)
    (by simp only [initialize_variables]; norm_num) hfp
    (by
      have hp2 : (0 : ℚ) < pos := by linarith
      have hdiv : (0 : ℚ) < pos / 2 := by positivity
      linarith)
  rw [validate_eq_of_some hsol]
  rfl

/-- C1: every RiskGuardTool.validate_and_optimize output with is_valid = true
satisfies, under the returned assignment, the risk cap (risk_amount equals
max_position_size times the stop-loss percentage recovered from the absolute
levels, and is at most capital times max_risk_per_trade), the leverage cap,
the reward requirement on the recovered percentages, and the margin cap
(max_position_size / leverage at most 90% of capital). -/
theorem riskguard_valid_output_satisfies_all_constraints
    (price capital : ℚ) (profile : TraderProfileT) (hp : 0 < price)
    (hv : (validate_and_optimize price capital profile).is_valid = true) :
    ((validate_and_optimize price capital profile).risk_amount =
        (validate_and_optimize price capital profile).max_position_size *
          ((price - (validate_and_optimize price capital profile).stop_loss) /
            price)) ∧
    ((validate_and_optimize price capital profile).risk_amount ≤
        capital * (TRADER_PROFILES profile).max_risk_per_trade) ∧
    ((validate_and_optimize price capital profile).leverage ≤
        (TRADER_PROFILES profile).max_leverage) ∧
    (((validate_and_optimize price capital profile).take_profit - price) /
        price ≥
      ((price - (validate_and_optimize price capital profile).stop_loss) /
        price) * (TRADER_PROFILES profile).profit_target_multiplier) ∧
    ((validate_and_optimize price capital profile).max_position_size /
        (validate_and_optimize price capital profile).leverage ≤
      capital * (9/10)) := by
  rcases hsol : solve_csp (initialize_variables capital (TRADER_PROFILES profile))
      capital (TRADER_PROFILES profile) with _ | sol
  · rw [validate_eq_of_none hsol] at hv
    exact absurd hv (by simp)
  · obtain ⟨hok, _, _, _, _, _, _⟩ := solve_csp_sound hsol
    simp only [constraints_ok, Bool.and_eq_true, decide_eq_true_eq] at hok
    obtain ⟨⟨⟨hrisk, hlev⟩, hreward⟩, hmargin⟩ := hok
    rw [validate_eq_of_some hsol]
    have hslrec : (price - price * (1 - sol.stop_loss_pct)) / price
        = sol.stop_loss_pct := by
      field_simp
      ring
    have htprec : (price * (1 + sol.take_profit_pct) - price) / price
        = sol.take_profit_pct := by
      field_simp
      ring
    simp only [build_risk_constraints, hslrec, htprec]
    exact ⟨by trivial, hrisk, hlev, by exact hreward, hmargin⟩

/-- Witness for C1 at price 1, capital 10000, conservative profile. -/
theorem riskguard_valid_output_satisfies_all_constraints_witness :
    (0 : ℚ) < 1 ∧
    (validate_and_optimize 1 10000 TraderProfileT.conservative).is_valid
      = true ∧
    ((validate_and_optimize 1 10000 TraderProfileT.conservative).risk_amount ≤
        10000 * (TRADER_PROFILES TraderProfileT.conservative).max_risk_per_trade) :=
  ⟨by norm_num, conservative_10000_is_valid,
    (riskguard_valid_output_satisfies_all_constraints 1 10000
      TraderProfileT.conservative (by norm_num)
      conservative_10000_is_valid).2.1⟩

/-- C5: for the configured trader profiles, the solver is monotone in risk
tolerance: with market state and portfolio fixed, if profile B is at least
as permissive as profile A in both max_risk_per_trade and max_leverage, then
whenever A\'s run is valid so is B\'s, and B\'s (position_size / leverage)
optimum is at least A\'s. -/
theorem riskguard_monotone_in_risk_tolerance
    (price capital : ℚ) (A B : TraderProfileT) (hcap : 0 < capital)
    (hr : (TRADER_PROFILES A).max_risk_per_trade ≤
          (TRADER_PROFILES B).max_risk_per_trade)
    (hlv : (TRADER_PROFILES A).max_leverage ≤ (TRADER_PROFILES B).max_leverage)
    (hva : (validate_and_optimize price capital A).is_valid = true) :
    (validate_and_optimize price capital B).is_valid = true ∧
    (validate_and_optimize price capital A).max_position_size /
        (validate_and_optimize price capital A).leverage ≤
      (validate_and_optimize price capital B).max_position_size /
        (validate_and_optimize price capital B).leverage := by
  rcases hsolA : solve_csp (initialize_variables capital (TRADER_PROFILES A))
      capital (TRADER_PROFILES A) with _ | aA
  · rw [validate_eq_of_none hsolA] at hva
    exact absurd hva (by simp)
  obtain ⟨hokA, hposmem, hd1, hd2, hlevmem, hslmem, _⟩ := solve_csp_sound hsolA
  simp only [constraints_ok, Bool.and_eq_true, decide_eq_true_eq] at hokA
  obtain ⟨⟨⟨hriskA, _⟩, _⟩, _⟩ := hokA
  obtain ⟨hsllo, hslhi, hslpos, htplo, htphi⟩ := sl_candidate_facts hslmem
  have hd1' : (100 : ℚ) ≤ aA.position_size := by
    simpa [initialize_variables] using hd1
  have hd2' : aA.position_size ≤ capital * (1/2) := by
    simpa [initialize_variables] using hd2
  -- the candidate combination for profile B: leverage 1, A\'s stop loss,
  -- take-profit multiplier 3
  have hcomboB : ((1 : ℚ), aA.stop_loss_pct, (3 : ℚ)) ∈
      combo_list (initialize_variables capital (TRADER_PROFILES B)) := by
    refine List.mem_flatMap.2 ⟨1, ?_, ?_⟩
    · simpa [initialize_variables] using one_mem_leverage_candidates B
    · exact List.mem_flatMap.2 ⟨aA.stop_loss_pct, hslmem,
        List.mem_map.2 ⟨3, by norm_num [tp_multipliers], rfl⟩⟩
  -- A\'s position is valid for that combination under B\'s profile
  have hvalidB : (fun pos =>
      decide ((initialize_variables capital
          (TRADER_PROFILES B)).position_size.1 ≤ pos) &&
      decide (pos ≤ (initialize_variables capital
          (TRADER_PROFILES B)).position_size.2) &&
      constraints_ok capital (TRADER_PROFILES B)
        { leverage := 1, stop_loss_pct := aA.stop_loss_pct,
          take_profit_pct := aA.stop_loss_pct * 3, position_size := pos })
        aA.position_size = true := by
    simp only [initialize_variables, constraints_ok, Bool.and_eq_true,
      decide_eq_true_eq]
    have hR : aA.position_size * aA.stop_loss_pct ≤
        capital * (TRADER_PROFILES B).max_risk_per_trade :=
      le_trans hriskA (mul_le_mul_of_nonneg_left hr (le_of_lt hcap))
    have hL : (1 : ℚ) ≤ (TRADER_PROFILES B).max_leverage :=
      one_le_profile_max_leverage B
    have hW : aA.stop_loss_pct * 3 ≥
        aA.stop_loss_pct * (TRADER_PROFILES B).profit_target_multiplier :=
      mul_le_mul_of_nonneg_left (profile_multiplier_le_three B)
        (le_of_lt hslpos)
    have hM : aA.position_size / 1 ≤ capital * (9/10) := by
      rw [div_one]
      nlinarith
    exact ⟨⟨hd1', hd2'⟩, ⟨⟨hR, hL⟩, hW⟩, hM⟩
  have hfsome : ∃ pos, find_position
      (initialize_variables capital (TRADER_PROFILES B)) capital
      (TRADER_PROFILES B) 1 aA.stop_loss_pct (aA.stop_loss_pct * 3)
        = some pos := by
    have hiss : (find_position
        (initialize_variables capital (TRADER_PROFILES B)) capital
        (TRADER_PROFILES B) 1 aA.stop_loss_pct
        (aA.stop_loss_pct * 3)).isSome = true :=
      List.find?_isSome.2 ⟨aA.position_size, hposmem, hvalidB⟩
    exact Option.isSome_iff_exists.1 hiss
  obtain ⟨pos, hfp⟩ := hfsome
  have hposge : aA.position_size ≤ pos :=
    find?_max_of_pairwise_ge pos_candidates_pairwise hfp hposmem hvalidB
  have hpos100 : (100 : ℚ) ≤ pos := le_trans hd1' hposge
  have hge := solve_csp_ge (c := (1, aA.stop_loss_pct, 3)) hcomboB
    (by simp only [initialize_variables]; exact ⟨hsllo, hslhi⟩)
    (by simp only [initialize_variables]; exact ⟨htplo, htphi⟩)
    hfp (by rw [div_one]; linarith)
  obtain ⟨aB, hsolB, hscoreB⟩ := hge
  rw [validate_eq_of_some hsolA, validate_eq_of_some hsolB]
  constructor
  · rfl
  · have hlevA1 : 1 ≤ aA.leverage := by
      apply one_le_of_mem_leverage_candidates A
      simpa [initialize_variables] using hlevmem
    have hposA0 : (0 : ℚ) ≤ aA.position_size := by linarith
    calc aA.position_size / aA.leverage
        ≤ aA.position_size := div_le_self hposA0 hlevA1
      _ ≤ pos := hposge
      _ = pos / 1 := by rw [div_one]
      _ ≤ aB.position_size / aB.leverage := hscoreB

/-- Witness for C5: conservative vs aggressive at capital 10000. -/
theorem riskguard_monotone_in_risk_tolerance_witness :
    (0 : ℚ) < 10000 ∧
    (TRADER_PROFILES TraderProfileT.conservative).max_risk_per_trade ≤
      (TRADER_PROFILES TraderProfileT.aggressive).max_risk_per_trade ∧
    (TRADER_PROFILES TraderProfileT.conservative).max_leverage ≤
      (TRADER_PROFILES TraderProfileT.aggressive).max_leverage ∧
    (validate_and_optimize 1 10000 TraderProfileT.conservative).is_valid
      = true ∧
    (validate_and_optimize 1 10000 TraderProfileT.aggressive).is_valid
      = true :=
  ⟨by norm_num, by norm_num [TRADER_PROFILES], by norm_num [TRADER_PROFILES],
    conservative_10000_is_valid,
    (riskguard_monotone_in_risk_tolerance 1 10000 TraderProfileT.conservative
      TraderProfileT.aggressive (by norm_num) (by norm_num [TRADER_PROFILES])
      (by norm_num [TRADER_PROFILES]) conservative_10000_is_valid).1⟩

end RiskGuard

namespace Opti

/- Embedding of OptiTradeTool (mcp_tools/opti_trade.py).  Scores use real
arithmetic because the evaluation function applies np.tanh.  Two SearchState
fields are omitted: `parent` (written by _generate_successors but never read
by any output) and `portfolio_state` (copied into each state but never read;
the evaluation reads the portfolio argument directly).  Strings built with
f-string interpolation of numbers are modelled structurally by inductives
whose constructors carry those numbers: distinct constructor arguments
correspond to distinct formatted strings (up to the printed precision). -/

inductive TradeActionT where
  | buy
  | sell
  | hold
  | close
deriving DecidableEq

/- The state-level `reasoning` strings. -/
inductive StateReasoning where
  | openBuy (pct : ℚ)
  | openSell (pct : ℚ)
  | holdNoTrade
  | closePositions
  | adjustSize (units : ℚ)
  | fallbackHold
deriving DecidableEq

structure SearchState where
  action : TradeActionT
  entry_price : ℚ
  position_size : ℚ
  stop_loss : ℚ
  take_profit : ℚ
  leverage : ℚ
  score : ℝ
  depth : ℕ
  reasoning : StateReasoning

/- The slices of MarketState, TrendForecast and Portfolio that OptiTradeTool
reads (current_price, indicators.volatility, pair; the probabilities and
confidence; all four portfolio fields, of which only open_positions and
max_drawdown are used). -/
structure MarketStateO where
  pair : String
  current_price : ℚ
  volatility : ℚ

structure ForecastO where
  probability_up : ℚ
  probability_down : ℚ
  confidence : ℚ

structure PortfolioO where
  capital : ℚ
  open_positions : ℕ
  total_profit_loss : ℚ
  max_drawdown : ℚ

/- Entries of self.reasoning_trace, in the order the code appends them. -/
inductive TraceEntry where
  | generatedStates (n : ℕ)
  | depthReport (depth evaluated kept : ℕ)
  | searchCompleted (ms : ℚ)
  | bestScore (s : ℝ)

/- The summary prefix of the final reasoning string built by
_state_to_recommendation. -/
inductive Summary where
  | bullishTrend (confidence : ℚ) (r : StateReasoning)
  | bearishTrend (confidence : ℚ) (r : StateReasoning)
  | noSignal (r : StateReasoning)

/- TradeRecommendation.reasoning: either the bare reason string of
_create_hold_recommendation, or summary plus search trace. -/
inductive RecReasoning where
  | short (s : String)
  | full (summary : Summary) (trace : List TraceEntry)

/- TradeRecommendation (models/trade.py).  risk_reward_value embeds the
risk_reward_ratio field. -/
structure TradeRecommendation where
  action : TradeActionT
  pair : String
  entry_price : ℚ
  position_size : ℚ
  stop_loss : ℚ
  take_profit : ℚ
  leverage : ℚ
  expected_profit : ℚ
  risk_reward_value : ℚ
  confidence_score : ℝ
  reasoning : RecReasoning

/- settings.SEARCH_BEAM_WIDTH and settings.SEARCH_MAX_DEPTH. -/
def SEARCH_BEAM_WIDTH : ℕ := 5

def SEARCH_MAX_DEPTH : ℕ := 3

/- _generate_initial_states. -/
def generate_initial_states (ms : MarketStateO) (tf : ForecastO)
    (rc : RiskGuard.RiskConstraints) (pf : PortfolioO) : List SearchState :=
  let p := ms.current_price
  let buys : List SearchState :=
    if tf.probability_up > 3/10 then
      ([1, 3/4, 1/2] : List ℚ).map (fun mult =>
        { action := .buy, entry_price := p,
          position_size := rc.max_position_size * mult,
          stop_loss := rc.stop_loss, take_profit := rc.take_profit,
          leverage := rc.leverage, score := 0, depth := 0,
          reasoning := .openBuy (mult * 100) })
    else []
  let sells : List SearchState :=
    if tf.probability_down > 3/10 then
      let sl_pct := (rc.stop_loss - p) / p
      let tp_pct := (rc.take_profit - p) / p
      let sell_stop_loss := p * (1 - sl_pct)
      let sell_take_profit := p * (1 - tp_pct)
      ([1, 3/4, 1/2] : List ℚ).map (fun mult =>
        { action := .sell, entry_price := p,
          position_size := rc.max_position_size * mult,
          stop_loss := sell_stop_loss, take_profit := sell_take_profit,
          leverage := rc.leverage, score := 0, depth := 0,
          reasoning := .openSell (mult * 100) })
    else []
  let holds : List SearchState :=
    [{ action := .hold, entry_price := p, position_size := 0,
       stop_loss := p, take_profit := p, leverage := 1, score := 0,
       depth := 0, reasoning := .holdNoTrade }]
  let closes : List SearchState :=
    if pf.open_positions > 0 then
      [{ action := .close, entry_price := p, position_size := 0,
         stop_loss := p, take_profit := p, leverage := 1, score := 0,
         depth := 0, reasoning := .closePositions }]
    else []
  buys ++ sells ++ holds ++ closes

/- _calculate_expected_profit. -/
noncomputable def calc_expected_profit (s : SearchState) (tf : ForecastO) : ℝ :=
  let expected : ℝ :=
    match s.action with
    | .buy =>
        (tf.probability_up : ℝ) *
            (((s.take_profit - s.entry_price) * s.position_size : ℚ) : ℝ) -
          (tf.probability_down : ℝ) *
            (((s.entry_price - s.stop_loss) * s.position_size : ℚ) : ℝ)
    | .sell =>
        (tf.probability_down : ℝ) *
            (((s.entry_price - s.take_profit) * s.position_size : ℚ) : ℝ) -
          (tf.probability_up : ℝ) *
            (((s.stop_loss - s.entry_price) * s.position_size : ℚ) : ℝ)
    | _ => 0
  Real.tanh (expected / 1000)

/- _calculate_risk_reward. -/
def calc_risk_reward (s : SearchState) : ℚ :=
  match s.action with
  | .hold => 0
  | .close => 0
  | .buy =>
      let risk := |s.entry_price - s.stop_loss|
      let reward := |s.take_profit - s.entry_price|
      if risk = 0 then 0 else min (reward / risk / 3) 1
  | .sell =>
      let risk := |s.stop_loss - s.entry_price|
      let reward := |s.entry_price - s.take_profit|
      if risk = 0 then 0 else min (reward / risk / 3) 1

/- _calculate_trend_alignment. -/
def calc_trend_alignment (s : SearchState) (tf : ForecastO) : ℚ :=
  match s.action with
  | .hold => 1/2
  | .close => 1/2
  | .buy => tf.probability_up
  | .sell => tf.probability_down

/- _evaluate_state, with the trader-profile-specific weight tables. -/
noncomputable def evaluate_state (s : SearchState) (ms : MarketStateO)
    (tf : ForecastO) (pf : PortfolioO) (profile : TraderProfileT) : ℝ :=
  if s.action = .hold then 0
  else if s.action = .close then 0.1
  else
    let ep : ℝ := calc_expected_profit s tf
    let rr : ℝ := (calc_risk_reward s : ℚ)
    let ta : ℝ := (calc_trend_alignment s tf : ℚ)
    let conf : ℝ := (tf.confidence : ℚ)
    let vol_penalty : ℝ := ((ms.volatility * 10 : ℚ) : ℝ)
    let dd_penalty : ℝ := ((pf.max_drawdown : ℚ) : ℝ)
    match profile with
    | .conservative =>
        0.25 * ep + 0.35 * rr + 0.15 * ta + 0.10 * conf -
          0.10 * vol_penalty - 0.05 * dd_penalty
    | .aggressive =>
        0.60 * ep + 0.20 * rr + 0.15 * ta + 0.05 * conf
    | .balanced =>
        0.35 * ep + 0.30 * rr + 0.20 * ta + 0.10 * conf - 0.05 * vol_penalty

/- _generate_successors: size perturbation by +-25%, clipped to the solved
maximum and the floor of 100 units; HOLD and CLOSE are terminal. -/
def generate_successors (s : SearchState) (rc : RiskGuard.RiskConstraints)
    (depth : ℕ) : List SearchState :=
  if s.action = .hold ∨ s.action = .close then []
  else
    ([5/4, 3/4] : List ℚ).filterMap (fun adj =>
      let new_size := s.position_size * adj
      if new_size ≤ rc.max_position_size ∧ new_size ≥ 100 then
        some { action := s.action, entry_price := s.entry_price,
               position_size := new_size, stop_loss := s.stop_loss,
               take_profit := s.take_profit, leverage := s.leverage,
               score := 0, depth := depth, reasoning := .adjustSize new_size }
      else none)

/- Score assignment of the evaluation loops. -/
noncomputable def eval_all (ms : MarketStateO) (tf : ForecastO)
    (pf : PortfolioO) (profile : TraderProfileT) (l : List SearchState) :
    List SearchState :=
  l.map (fun s => { s with score := evaluate_state s ms tf pf profile })

/- beam.sort(key=lambda s: s.score, reverse=True): Python list.sort is
stable; a stable descending sort by score is insertion sort with the
non-strict comparison below. -/
noncomputable def sort_by_score (l : List SearchState) : List SearchState :=
  l.insertionSort (fun a b => b.score ≤ a.score)

/- One iteration of the deepening loop of _beam_search: generate successors
of the whole beam, stop if none, else evaluate, sort, and prune to the beam
width.  Returns the evaluated successor list and the new beam. -/
noncomputable def beam_step (ms : MarketStateO) (tf : ForecastO)
    (pf : PortfolioO) (profile : TraderProfileT)
    (rc : RiskGuard.RiskConstraints) (width : ℕ)
    (beam : List SearchState) (depth : ℕ) :
    Option (List SearchState × List SearchState) :=
  let succs := beam.flatMap (fun s => generate_successors s rc depth)
  if succs.isEmpty then none
  else
    let evaluated := eval_all ms tf pf profile succs
    some (evaluated, (sort_by_score evaluated).take width)

/- Snapshot of the search after each completed depth: the retained beam and
all states explored so far (self.explored_states). -/
structure SearchSnapshot where
  beam : List SearchState
  explored : List SearchState

/- The per-depth snapshots of the deepening loop, starting from the given
snapshot; mirrors `for depth in range(1, max_depth+1)` with its break on an
empty successor list. -/
noncomputable def snapshots (ms : MarketStateO) (tf : ForecastO)
    (pf : PortfolioO) (profile : TraderProfileT)
    (rc : RiskGuard.RiskConstraints) (width : ℕ) :
    ℕ → ℕ → SearchSnapshot → List SearchSnapshot
  | 0, _, s => [s]
  | fuel + 1, depth, s =>
      match beam_step ms tf pf profile rc width s.beam depth with
      | none => [s]
      | some (evaluated, b) =>
          s :: snapshots ms tf pf profile rc width fuel (depth + 1)
            { beam := b, explored := s.explored ++ evaluated }

/- The depth-0 snapshot of _beam_search: initial states evaluated, sorted,
pruned. -/
noncomputable def initial_snapshot (ms : MarketStateO) (tf : ForecastO)
    (pf : PortfolioO) (profile : TraderProfileT) (width : ℕ)
    (initial : List SearchState) : SearchSnapshot :=
  let evaluated := eval_all ms tf pf profile initial
  { beam := (sort_by_score evaluated).take width, explored := evaluated }

/- The whole per-depth history of one _beam_search run. -/
noncomputable def search_snapshots (ms : MarketStateO) (tf : ForecastO)
    (pf : PortfolioO) (profile : TraderProfileT)
    (rc : RiskGuard.RiskConstraints) (width maxDepth : ℕ)
    (initial : List SearchState) : List SearchSnapshot :=
  snapshots ms tf pf profile rc width maxDepth 1
    (initial_snapshot ms tf pf profile width initial)

/- The best (maximum) score among a list of states. -/
noncomputable def best_score (l : List SearchState) : WithBot ℝ :=
  (l.map SearchState.score).maximum

/- The deepening loop of _beam_search, returning the final beam and the
per-depth trace reports (depth, states evaluated, states kept). -/
noncomputable def beam_loop (ms : MarketStateO) (tf : ForecastO)
    (pf : PortfolioO) (profile : TraderProfileT)
    (rc : RiskGuard.RiskConstraints) (width : ℕ) :
    ℕ → ℕ → List SearchState → List SearchState × List (ℕ × ℕ × ℕ)
  | 0, _, beam => (beam, [])
  | fuel + 1, depth, beam =>
      match beam_step ms tf pf profile rc width beam depth with
      | none => (beam, [])
      | some (evaluated, b) =>
          let rest := beam_loop ms tf pf profile rc width fuel (depth + 1) b
          (rest.1, (depth, evaluated.length, b.length) :: rest.2)

/- _beam_search: evaluate and prune the initial states, run the deepening
loop, return the top state of the final beam (or the fallback HOLD state)
together with the trace reports, the depth-0 report first. -/
noncomputable def beam_search (ms : MarketStateO) (tf : ForecastO)
    (pf : PortfolioO) (profile : TraderProfileT)
    (rc : RiskGuard.RiskConstraints) (width maxDepth : ℕ)
    (initial : List SearchState) : SearchState × List (ℕ × ℕ × ℕ) :=
  let evaluated := eval_all ms tf pf profile initial
  let beam0 := (sort_by_score evaluated).take width
  let r := beam_loop ms tf pf profile rc width maxDepth 1 beam0
  let best := match r.1 with
    | [] => { action := .hold, entry_price := ms.current_price,
              position_size := 0, stop_loss := ms.current_price,
              take_profit := ms.current_price, leverage := 1, score := 0,
              depth := 0, reasoning := .fallbackHold }
    | b :: _ => b
  (best, (0, initial.length, beam0.length) :: r.2)

/- _state_to_recommendation. -/
def state_to_recommendation (s : SearchState) (ms : MarketStateO)
    (tf : ForecastO) (trace : List TraceEntry) : TradeRecommendation :=
  let ep : ℚ :=
    match s.action with
    | .buy => (s.take_profit - s.entry_price) * s.position_size
    | .sell => (s.entry_price - s.take_profit) * s.position_size
    | _ => 0
  let summary : Summary :=
    match s.action with
    | .buy => .bullishTrend tf.confidence s.reasoning
    | .sell => .bearishTrend tf.confidence s.reasoning
    | _ => .noSignal s.reasoning
  let rr := calc_risk_reward s
  { action := s.action
    pair := ms.pair
    entry_price := s.entry_price
    position_size := s.position_size
    stop_loss := s.stop_loss
    take_profit := s.take_profit
    leverage := s.leverage
    expected_profit := ep
    risk_reward_value := if rr > 0 then rr * 3 else 0
    confidence_score := s.score
    reasoning := .full summary trace }

/- _create_hold_recommendation. -/
def create_hold_recommendation (ms : MarketStateO) (reason : String) :
    TradeRecommendation :=
  { action := .hold
    pair := ms.pair
    entry_price := ms.current_price
    position_size := 0
    stop_loss := ms.current_price
    take_profit := ms.current_price
    leverage := 1
    expected_profit := 0
    risk_reward_value := 0
    confidence_score := 0
    reasoning := .short reason }

/- optimize.  The elapsed_ms parameter models the wall-clock duration
(time.time() - start_time) * 1000 measured inside the call and interpolated
into the "Search completed" trace line: it is an input of the environment,
not of the trading problem. -/
noncomputable def optimize (ms : MarketStateO) (tf : ForecastO)
    (rc : RiskGuard.RiskConstraints) (pf : PortfolioO)
    (profile : TraderProfileT) (elapsed_ms : ℚ) : TradeRecommendation :=
  if rc.is_valid = true then
    let initial := generate_initial_states ms tf rc pf
    let result := beam_search ms tf pf profile rc SEARCH_BEAM_WIDTH
      SEARCH_MAX_DEPTH initial
    let trace := TraceEntry.generatedStates initial.length ::
      (result.2.map fun r => TraceEntry.depthReport r.1 r.2.1 r.2.2) ++
      [TraceEntry.searchCompleted elapsed_ms,
       TraceEntry.bestScore result.1.score]
    state_to_recommendation result.1 ms tf trace
  else
    create_hold_recommendation ms ("Risk constraints not satisfied")

/- Extraction of the reported elapsed time from a reasoning value. -/
def entry_elapsed : TraceEntry → Option ℚ
  | .searchCompleted v => some v
  | _ => none

def trace_elapsed : RecReasoning → Option ℚ
  | .short _ => none
  | .full _ tr => (tr.filterMap entry_elapsed).head?

lemma filterMap_entry_elapsed_depth_reports (l : List (ℕ × ℕ × ℕ)) :
    ((l.map fun r => TraceEntry.depthReport r.1 r.2.1 r.2.2).filterMap
      entry_elapsed) = [] := by
  induction l with
  | nil => rfl
  | cons a t ih => simp [entry_elapsed, ih]

lemma optimize_trace_elapsed (ms : MarketStateO) (tf : ForecastO)
    (rc : RiskGuard.RiskConstraints) (pf : PortfolioO)
    (profile : TraderProfileT) (t : ℚ) (hv : rc.is_valid = true) :
    trace_elapsed (optimize ms tf rc pf profile t).reasoning = some t := by
  unfold optimize
  rw [if_pos hv]
  simp [state_to_recommendation, trace_elapsed, List.filterMap_cons,
    List.filterMap_append, filterMap_entry_elapsed_depth_reports,
    entry_elapsed]

/- Concrete inputs used by the OptiTrade counterexamples. -/
def msX : MarketStateO := { pair := "EURUSD", current_price := 1, volatility := 0 }

def tfX : ForecastO :=
  { probability_up := 1/2, probability_down := 1/5, confidence := 1/2 }

def rcX : RiskGuard.RiskConstraints :=
  { max_position_size := 1000, stop_loss := 99/100, take_profit := 102/100,
    leverage := 1, risk_amount := 5, is_valid := true,
    constraint_violations := [] }

def pfX : PortfolioO :=
  { capital := 10000, open_positions := 0, total_profit_loss := 0,
    max_drawdown := 0 }

/-- C3 counterexample: optimize is not byte-for-byte deterministic in every
field.  On byte-identical trading inputs, two runs whose measured execution
times differ (100ms vs 200ms) return different reasoning texts, because the
reasoning embeds the "Search completed in ...ms" line. -/
theorem optimize_reasoning_differs_across_runs :
    (optimize msX tfX rcX pfX TraderProfileT.balanced 100).reasoning ≠
    (optimize msX tfX rcX pfX TraderProfileT.balanced 200).reasoning := by
  intro h
  have h1 := optimize_trace_elapsed msX tfX rcX pfX TraderProfileT.balanced
    100 rfl
  have h2 := optimize_trace_elapsed msX tfX rcX pfX TraderProfileT.balanced
    200 rfl
  rw [h] at h1
  rw [h1] at h2
  have : (100 : ℚ) = 200 := by injection h2
  norm_num at this

/-- C3 (amended): optimize is deterministic in every output field except the
reasoning text: for byte-identical trading inputs, the action, pair, prices,
position size, leverage, expected profit, risk-reward and confidence fields
agree across runs regardless of the measured execution time; only the
reasoning's reported elapsed time can differ. -/
theorem optimize_deterministic_except_reasoning (ms : MarketStateO)
    (tf : ForecastO) (rc : RiskGuard.RiskConstraints) (pf : PortfolioO)
    (profile : TraderProfileT) (t₁ t₂ : ℚ) :
    (optimize ms tf rc pf profile t₁).action =
      (optimize ms tf rc pf profile t₂).action ∧
    (optimize ms tf rc pf profile t₁).pair =
      (optimize ms tf rc pf profile t₂).pair ∧
    (optimize ms tf rc pf profile t₁).entry_price =
      (optimize ms tf rc pf profile t₂).entry_price ∧
    (optimize ms tf rc pf profile t₁).position_size =
      (optimize ms tf rc pf profile t₂).position_size ∧
    (optimize ms tf rc pf profile t₁).stop_loss =
      (optimize ms tf rc pf profile t₂).stop_loss ∧
    (optimize ms tf rc pf profile t₁).take_profit =
      (optimize ms tf rc pf profile t₂).take_profit ∧
    (optimize ms tf rc pf profile t₁).leverage =
      (optimize ms tf rc pf profile t₂).leverage ∧
    (optimize ms tf rc pf profile t₁).expected_profit =
      (optimize ms tf rc pf profile t₂).expected_profit ∧
    (optimize ms tf rc pf profile t₁).risk_reward_value =
      (optimize ms tf rc pf profile t₂).risk_reward_value ∧
    (optimize ms tf rc pf profile t₁).confidence_score =
      (optimize ms tf rc pf profile t₂).confidence_score := by
  unfold optimize
  split_ifs <;>
    simp [state_to_recommendation, create_hold_recommendation]

/-- C4: whenever the supplied risk constraints are invalid, optimize returns
a HOLD recommendation with zero position size whose reasoning cites the
constraint violation, regardless of forecast, portfolio and profile. -/
theorem optimize_invalid_constraints_returns_hold (ms : MarketStateO)
    (tf : ForecastO) (rc : RiskGuard.RiskConstraints) (pf : PortfolioO)
    (profile : TraderProfileT) (t : ℚ) (hv : rc.is_valid = false) :
    (optimize ms tf rc pf profile t).action = .hold ∧
    (optimize ms tf rc pf profile t).position_size = 0 ∧
    (optimize ms tf rc pf profile t).reasoning =
      .short ("Risk constraints not satisfied") := by
  unfold optimize
  rw [if_neg (by simp [hv])]
  exact ⟨rfl, rfl, rfl⟩

/- An invalid risk-constraint record for the C4 witness. -/
def rcInvalid : RiskGuard.RiskConstraints :=
  { max_position_size := 0, stop_loss := 1, take_profit := 1, leverage := 1,
    risk_amount := 0, is_valid := false,
    constraint_violations := ["No valid solution satisfying all constraints"] }

/-- Witness for C4 at a concrete invalid input. -/
theorem optimize_invalid_constraints_returns_hold_witness :
    rcInvalid.is_valid = false ∧
    (optimize msX tfX rcInvalid pfX TraderProfileT.balanced 100).action
      = .hold ∧
    (optimize msX tfX rcInvalid pfX TraderProfileT.balanced 100).position_size
      = 0 :=
  ⟨rfl,
    (optimize_invalid_constraints_returns_hold msX tfX rcInvalid pfX
      TraderProfileT.balanced 100 rfl).1,
    (optimize_invalid_constraints_returns_hold msX tfX rcInvalid pfX
      TraderProfileT.balanced 100 rfl).2.1⟩

/-- C9: for a valid risk-constraint input whose absolute stop loss is
strictly below and take profit strictly above the current price, every SELL
initial state mirrors the levels around the entry price: its stop loss is
strictly above and its take profit strictly below the (current) entry
price. -/
theorem sell_initial_states_mirror_levels (ms : MarketStateO)
    (tf : ForecastO) (rc : RiskGuard.RiskConstraints) (pf : PortfolioO)
    (hp : 0 < ms.current_price) (hsl : rc.stop_loss < ms.current_price)
    (htp : ms.current_price < rc.take_profit) :
    ∀ s ∈ generate_initial_states ms tf rc pf, s.action = .sell →
      s.entry_price = ms.current_price ∧
      ms.current_price < s.stop_loss ∧
      s.take_profit < ms.current_price := by
  have hp0 : ms.current_price ≠ 0 := ne_of_gt hp
  have hkey : ∀ x : ℚ, ms.current_price *
      (1 - (x - ms.current_price) / ms.current_price) =
        2 * ms.current_price - x := by
    intro x
    field_simp
    ring
  intro s hs hsell
  unfold generate_initial_states at hs
  simp only [List.mem_append, List.mem_map, List.mem_singleton] at hs
  rcases hs with ((hbuy | hsellm) | hhold) | hclose
  · -- BUY branch: impossible for a SELL state
    rcases Decidable.em (tf.probability_up > 3/10) with hc | hc
    · rw [if_pos hc] at hbuy
      rcases List.mem_map.1 hbuy with ⟨m, _, rfl⟩
      simp at hsell
    · rw [if_neg hc] at hbuy
      cases hbuy
  · -- SELL branch
    rcases Decidable.em (tf.probability_down > 3/10) with hc | hc
    · rw [if_pos hc] at hsellm
      rcases List.mem_map.1 hsellm with ⟨m, _, rfl⟩
      refine ⟨rfl, ?_, ?_⟩
      · show ms.current_price < ms.current_price *
          (1 - (rc.stop_loss - ms.current_price) / ms.current_price)
        rw [hkey]
        linarith
      · show ms.current_price *
          (1 - (rc.take_profit - ms.current_price) / ms.current_price) <
            ms.current_price
        rw [hkey]
        linarith
    · rw [if_neg hc] at hsellm
      cases hsellm
  · -- HOLD state
    rw [hhold] at hsell
    simp at hsell
  · -- CLOSE branch
    rcases Decidable.em (pf.open_positions > 0) with hc | hc
    · rw [if_pos hc] at hclose
      rcases List.mem_singleton.1 hclose with rfl
      simp at hsell
    · rw [if_neg hc] at hclose
      cases hclose

/- A bearish forecast (probability_down = 2/5 > 0.3), so the SELL branch of
_generate_initial_states actually fires. -/
def tfSell : ForecastO :=
  { probability_up := 1/5, probability_down := 2/5, confidence := 1/2 }

/-- Witness for C9: at this concrete bearish input the generated state list
really contains a SELL state (the conclusion is not vacuous), and the
mirroring conclusion holds for every SELL state in it. -/
theorem sell_initial_states_mirror_levels_witness :
    (0 : ℚ) < msX.current_price ∧
    rcX.stop_loss < msX.current_price ∧
    msX.current_price < rcX.take_profit ∧
    (∃ s ∈ generate_initial_states msX tfSell rcX pfX,
      s.action = TradeActionT.sell) ∧
    (∀ s ∈ generate_initial_states msX tfSell rcX pfX, s.action = .sell →
      s.entry_price = msX.current_price ∧
      msX.current_price < s.stop_loss ∧
      s.take_profit < msX.current_price) := by
  have hup : ¬ (tfSell.probability_up > 3/10) := by norm_num [tfSell]
  have hdn : tfSell.probability_down > 3/10 := by norm_num [tfSell]
  have hcl : ¬ (pfX.open_positions > 0) := by norm_num [pfX]
  refine ⟨by norm_num [msX], by norm_num [msX, rcX], by norm_num [msX, rcX],
    ?_,
    sell_initial_states_mirror_levels msX tfSell rcX pfX
      (by norm_num [msX]) (by norm_num [msX, rcX]) (by norm_num [msX, rcX])⟩
  unfold generate_initial_states
  dsimp only
  rw [if_neg hup, if_pos hdn, if_neg hcl]
  exact ⟨_, List.mem_append_left _ (List.mem_append_left _
    (List.mem_append_right _
      (List.mem_map.2 ⟨1, List.mem_cons_self _ _, rfl⟩))), rfl⟩

lemma maximum_perm {l l' : List ℝ} (h : l.Perm l') :
    l.maximum = l'.maximum := by
  induction h with
  | nil => rfl
  | cons a _ ih => rw [List.maximum_cons, List.maximum_cons, ih]
  | swap a b t =>
      rw [List.maximum_cons, List.maximum_cons, List.maximum_cons,
        List.maximum_cons]
      exact sup_left_comm ((b : WithBot ℝ)) ((a : WithBot ℝ)) _
  | trans _ _ ih1 ih2 => exact ih1.trans ih2

lemma best_score_perm {l l' : List SearchState} (h : l.Perm l') :
    best_score l = best_score l' :=
  maximum_perm (h.map SearchState.score)

lemma maximum_le_append (l l' : List ℝ) :
    l.maximum ≤ (l ++ l').maximum := by
  induction l with
  | nil => exact bot_le
  | cons a t ih =>
      rw [List.cons_append, List.maximum_cons, List.maximum_cons]
      exact sup_le_sup_left ih _

lemma best_score_le_append (l e : List SearchState) :
    best_score l ≤ best_score (l ++ e) := by
  unfold best_score
  rw [List.map_append]
  exact maximum_le_append _ _

lemma maximum_le_coe_of_forall {l : List ℝ} {c : ℝ} (h : ∀ a ∈ l, a ≤ c) :
    l.maximum ≤ (c : WithBot ℝ) := by
  induction l with
  | nil => exact bot_le
  | cons a t ih =>
      rw [List.maximum_cons]
      exact sup_le (WithBot.coe_le_coe.2 (h a (List.mem_cons_self a t)))
        (ih fun x hx => h x (List.mem_cons_of_mem a hx))

lemma snapshots_cons (ms : MarketStateO) (tf : ForecastO) (pf : PortfolioO)
    (profile : TraderProfileT) (rc : RiskGuard.RiskConstraints) (width : ℕ)
    (fuel depth : ℕ) (s : SearchSnapshot) :
    ∃ t, snapshots ms tf pf profile rc width fuel depth s = s :: t := by
  cases fuel with
  | zero => exact ⟨[], rfl⟩
  | succ n =>
      rw [snapshots]
      rcases h : beam_step ms tf pf profile rc width s.beam depth with _ | p
      · exact ⟨[], rfl⟩
      · exact ⟨_, rfl⟩

lemma snapshots_explored_chain (ms : MarketStateO) (tf : ForecastO)
    (pf : PortfolioO) (profile : TraderProfileT)
    (rc : RiskGuard.RiskConstraints) (width : ℕ) (fuel depth : ℕ)
    (s : SearchSnapshot) :
    List.Chain' (fun a b : SearchSnapshot =>
        best_score a.explored ≤ best_score b.explored)
      (snapshots ms tf pf profile rc width fuel depth s) := by
  induction fuel generalizing depth s with
  | zero => simp [snapshots]
  | succ n ih =>
      rw [snapshots]
      rcases h : beam_step ms tf pf profile rc width s.beam depth with _ | p
      · simp
      · obtain ⟨ev, b⟩ := p
        dsimp only
        obtain ⟨t, ht⟩ := snapshots_cons ms tf pf profile rc width n
          (depth + 1) { beam := b, explored := s.explored ++ ev }
        rw [ht, List.chain'_cons]
        exact ⟨best_score_le_append _ _,
          ht ▸ ih (depth + 1) { beam := b, explored := s.explored ++ ev }⟩

/-- C2 (amended): the best beam score can strictly decrease from one depth
to the next (see the counterexample); what is monotone is the best score
over all states explored so far: along the per-depth snapshots of any beam
search run, the best explored score never decreases, for every beam width
and depth bound. -/
theorem beam_search_explored_best_monotone (ms : MarketStateO)
    (tf : ForecastO) (rc : RiskGuard.RiskConstraints) (pf : PortfolioO)
    (profile : TraderProfileT) (width maxDepth : ℕ) :
    List.Chain' (fun a b : SearchSnapshot =>
        best_score a.explored ≤ best_score b.explored)
      (search_snapshots ms tf pf profile rc width maxDepth
        (generate_initial_states ms tf rc pf)) :=
  snapshots_explored_chain ms tf pf profile rc width maxDepth 1 _

/- Concrete input on which the beam degrades between depth 0 and depth 1:
high volatility makes every BUY state score negative, the HOLD state (score
0) is the depth-0 best, but HOLD is terminal, so the depth-1 beam consists
only of negative-scoring BUY successors. -/
def c2Ms : MarketStateO := { pair := "EURUSD", current_price := 1, volatility := 2 }

def c2Tf : ForecastO :=
  { probability_up := 31/100, probability_down := 1/5, confidence := 0 }

def c2Rc : RiskGuard.RiskConstraints :=
  { max_position_size := 10000, stop_loss := 1, take_profit := 1,
    leverage := 1, risk_amount := 0, is_valid := true,
    constraint_violations := [] }

def c2Pf : PortfolioO :=
  { capital := 10000, open_positions := 0, total_profit_loss := 0,
    max_drawdown := 0 }

def c2B (size pct : ℚ) : SearchState :=
  { action := .buy, entry_price := 1, position_size := size, stop_loss := 1,
    take_profit := 1, leverage := 1, score := 0, depth := 0,
    reasoning := .openBuy pct }

def c2H : SearchState :=
  { action := .hold, entry_price := 1, position_size := 0, stop_loss := 1,
    take_profit := 1, leverage := 1, score := 0, depth := 0,
    reasoning := .holdNoTrade }

noncomputable def c2BE (size pct : ℚ) : SearchState :=
  { action := .buy, entry_price := 1, position_size := size, stop_loss := 1,
    take_profit := 1, leverage := 1, score := (-469/500 : ℝ), depth := 0,
    reasoning := .openBuy pct }

lemma c2_eval_buy_flat (s : SearchState) (ha : s.action = .buy)
    (he : s.entry_price = 1) (hsl : s.stop_loss = 1)
    (htp : s.take_profit = 1) :
    evaluate_state s c2Ms c2Tf c2Pf TraderProfileT.balanced
      = (-469/500 : ℝ) := by
  obtain ⟨a, ep, size, sl, tp, lev, sc, d, r⟩ := s
  dsimp only at ha he hsl htp
  subst ha he hsl htp
  unfold evaluate_state calc_expected_profit calc_risk_reward
    calc_trend_alignment
  norm_num [c2Ms, c2Tf, c2Pf, Real.tanh_zero]
  rw [if_neg (by decide), if_neg (by decide)]

lemma c2_eval_hold (s : SearchState) (ha : s.action = .hold) :
    evaluate_state s c2Ms c2Tf c2Pf TraderProfileT.balanced = 0 := by
  unfold evaluate_state
  rw [if_pos ha]

lemma generate_successors_fields {s y : SearchState}
    {rc : RiskGuard.RiskConstraints} {depth : ℕ}
    (h : y ∈ generate_successors s rc depth) :
    y.action = s.action ∧ y.entry_price = s.entry_price ∧
    y.stop_loss = s.stop_loss ∧ y.take_profit = s.take_profit := by
  unfold generate_successors at h
  split_ifs at h with hc
  · cases h
  · rcases List.mem_filterMap.1 h with ⟨adj, _, hf⟩
    dsimp only at hf
    split_ifs at hf with hcond
    · cases hf
      exact ⟨rfl, rfl, rfl, rfl⟩

lemma generate_successors_of_hold {s : SearchState}
    {rc : RiskGuard.RiskConstraints} {depth : ℕ} (ha : s.action = .hold) :
    generate_successors s rc depth = [] := by
  unfold generate_successors
  rw [if_pos (Or.inl ha)]

/- The BUY successor of the 75%-size state at depth 1 (size 7500 * 1.25). -/
def c2Y : SearchState :=
  { action := .buy, entry_price := 1, position_size := 9375, stop_loss := 1,
    take_profit := 1, leverage := 1, score := 0, depth := 1,
    reasoning := .adjustSize 9375 }

/- The snapshot recursion unfolded one step. -/
lemma snapshots_succ (ms : MarketStateO) (tf : ForecastO) (pf : PortfolioO)
    (profile : TraderProfileT) (rc : RiskGuard.RiskConstraints)
    (width fuel depth : ℕ) (s : SearchSnapshot) :
    snapshots ms tf pf profile rc width (fuel + 1) depth s =
      match beam_step ms tf pf profile rc width s.beam depth with
      | none => [s]
      | some (evaluated, b) =>
          s :: snapshots ms tf pf profile rc width fuel (depth + 1)
            { beam := b, explored := s.explored ++ evaluated } := rfl

/-- C2 counterexample: on a concrete input (beam width 5, the configured
default) the best score retained at depth 1 is strictly smaller than the
best score retained at depth 0, refuting "the best score retained at depth
d+1 is >= the best score retained at depth d". -/
theorem beam_best_score_decreases_at_depth_one :
    best_score (((search_snapshots c2Ms c2Tf c2Pf TraderProfileT.balanced
        c2Rc SEARCH_BEAM_WIDTH SEARCH_MAX_DEPTH
        (generate_initial_states c2Ms c2Tf c2Rc c2Pf)).getD 1
          { beam := [], explored := [] }).beam) <
    best_score (((search_snapshots c2Ms c2Tf c2Pf TraderProfileT.balanced
        c2Rc SEARCH_BEAM_WIDTH SEARCH_MAX_DEPTH
        (generate_initial_states c2Ms c2Tf c2Rc c2Pf)).getD 0
          { beam := [], explored := [] }).beam) := by
  have hinit : generate_initial_states c2Ms c2Tf c2Rc c2Pf
      = [c2B 10000 100, c2B 7500 75, c2B 5000 50, c2H] := by
    unfold generate_initial_states
    norm_num [c2Ms, c2Tf, c2Rc, c2Pf, c2B, c2H]
  have hev0 : eval_all c2Ms c2Tf c2Pf TraderProfileT.balanced
      (generate_initial_states c2Ms c2Tf c2Rc c2Pf)
      = [c2BE 10000 100, c2BE 7500 75, c2BE 5000 50, c2H] := by
    rw [hinit]
    unfold eval_all
    simp only [List.map_cons, List.map_nil]
    rw [c2_eval_buy_flat (c2B 10000 100) rfl rfl rfl rfl,
      c2_eval_buy_flat (c2B 7500 75) rfl rfl rfl rfl,
      c2_eval_buy_flat (c2B 5000 50) rfl rfl rfl rfl,
      c2_eval_hold c2H rfl]
    simp [c2B, c2H, c2BE]
  set ev0 := eval_all c2Ms c2Tf c2Pf TraderProfileT.balanced
    (generate_initial_states c2Ms c2Tf c2Rc c2Pf) with hev0def
  have hlen0 : (sort_by_score ev0).length = 4 := by
    rw [sort_by_score, List.length_insertionSort, hev0]
    rfl
  have htake0 : (sort_by_score ev0).take SEARCH_BEAM_WIDTH
      = sort_by_score ev0 :=
    List.take_of_length_le (by rw [hlen0]; norm_num [SEARCH_BEAM_WIDTH])
  have hperm0 : ((sort_by_score ev0).take SEARCH_BEAM_WIDTH).Perm ev0 := by
    rw [htake0]
    exact List.perm_insertionSort _ _
  -- a successor exists, so the loop performs a depth-1 step
  have hmemB : c2BE 7500 75 ∈ (sort_by_score ev0).take SEARCH_BEAM_WIDTH :=
    hperm0.mem_iff.2 (by rw [hev0]; simp)
  have hy0 : c2Y ∈ generate_successors (c2BE 7500 75) c2Rc 1 := by
    unfold generate_successors
    rw [if_neg (by simp [c2BE])]
    refine List.mem_filterMap.2 ⟨5/4, by norm_num, ?_⟩
    dsimp only
    rw [if_pos (by norm_num [c2BE, c2Rc])]
    norm_num [c2BE, c2Y]
  have hsuccs_ne : ((sort_by_score ev0).take SEARCH_BEAM_WIDTH).flatMap
      (fun s => generate_successors s c2Rc 1) ≠ [] :=
    List.ne_nil_of_mem (List.mem_flatMap.2 ⟨c2BE 7500 75, hmemB, hy0⟩)
  set succs := ((sort_by_score ev0).take SEARCH_BEAM_WIDTH).flatMap
    (fun s => generate_successors s c2Rc 1) with hsuccsdef
  set ev1 := eval_all c2Ms c2Tf c2Pf TraderProfileT.balanced succs
    with hev1def
  have hstep : beam_step c2Ms c2Tf c2Pf TraderProfileT.balanced c2Rc
      SEARCH_BEAM_WIDTH ((sort_by_score ev0).take SEARCH_BEAM_WIDTH) 1
      = some (ev1, (sort_by_score ev1).take SEARCH_BEAM_WIDTH) := by
    unfold beam_step
    dsimp only
    rw [← hsuccsdef, if_neg (by simp [List.isEmpty_iff, hsuccs_ne])]
  have hs0 : initial_snapshot c2Ms c2Tf c2Pf TraderProfileT.balanced
      SEARCH_BEAM_WIDTH (generate_initial_states c2Ms c2Tf c2Rc c2Pf)
      = { beam := (sort_by_score ev0).take SEARCH_BEAM_WIDTH,
          explored := ev0 } := rfl
  obtain ⟨t', hrest⟩ := snapshots_cons c2Ms c2Tf c2Pf TraderProfileT.balanced
    c2Rc SEARCH_BEAM_WIDTH 2 2
    { beam := (sort_by_score ev1).take SEARCH_BEAM_WIDTH,
      explored := ev0 ++ ev1 }
  have hlist : search_snapshots c2Ms c2Tf c2Pf TraderProfileT.balanced c2Rc
      SEARCH_BEAM_WIDTH SEARCH_MAX_DEPTH
      (generate_initial_states c2Ms c2Tf c2Rc c2Pf)
      = { beam := (sort_by_score ev0).take SEARCH_BEAM_WIDTH,
          explored := ev0 } ::
        { beam := (sort_by_score ev1).take SEARCH_BEAM_WIDTH,
          explored := ev0 ++ ev1 } :: t' := by
    unfold search_snapshots
    rw [hs0, show SEARCH_MAX_DEPTH = 2 + 1 from rfl, snapshots_succ]
    dsimp only
    rw [hstep]
    dsimp only
    rw [hrest]
  rw [hlist]
  simp only [List.getD_cons_zero, List.getD_cons_succ]
  -- every state in the depth-1 beam scores -469/500
  have hall : ∀ x ∈ (sort_by_score ev1).take SEARCH_BEAM_WIDTH,
      x.score = (-469/500 : ℝ) := by
    intro x hx
    have hx1 : x ∈ sort_by_score ev1 := List.take_subset _ _ hx
    have hx2 : x ∈ ev1 := (List.perm_insertionSort _ _).mem_iff.1 hx1
    rw [hev1def] at hx2
    unfold eval_all at hx2
    rcases List.mem_map.1 hx2 with ⟨y, hy, rfl⟩
    rw [hsuccsdef] at hy
    rcases List.mem_flatMap.1 hy with ⟨z, hz, hyz⟩
    have hz0 : z ∈ ev0 := hperm0.mem_iff.1 hz
    rw [hev0] at hz0
    simp only [List.mem_cons, List.mem_singleton, List.not_mem_nil,
      or_false] at hz0
    rcases hz0 with rfl | rfl | rfl | rfl
    · obtain ⟨ha, he, hsl, htp⟩ := generate_successors_fields hyz
      exact c2_eval_buy_flat y ha he hsl htp
    · obtain ⟨ha, he, hsl, htp⟩ := generate_successors_fields hyz
      exact c2_eval_buy_flat y ha he hsl htp
    · obtain ⟨ha, he, hsl, htp⟩ := generate_successors_fields hyz
      exact c2_eval_buy_flat y ha he hsl htp
    · rw [generate_successors_of_hold rfl] at hyz
      cases hyz
  have hleft : best_score ((sort_by_score ev1).take SEARCH_BEAM_WIDTH)
      ≤ ((-469/500 : ℝ) : WithBot ℝ) := by
    apply maximum_le_coe_of_forall
    intro a ha
    rcases List.mem_map.1 ha with ⟨x, hx, rfl⟩
    exact le_of_eq (hall x hx)
  have hright : ((0 : ℝ) : WithBot ℝ)
      ≤ best_score ((sort_by_score ev0).take SEARCH_BEAM_WIDTH) := by
    have hmemH : c2H ∈ (sort_by_score ev0).take SEARCH_BEAM_WIDTH :=
      hperm0.mem_iff.2 (by rw [hev0]; simp)
    have : (0 : ℝ) ∈ ((sort_by_score ev0).take SEARCH_BEAM_WIDTH).map
        SearchState.score :=
      List.mem_map.2 ⟨c2H, hmemH, rfl⟩
    exact List.le_maximum_of_mem' this
  calc best_score ((sort_by_score ev1).take SEARCH_BEAM_WIDTH)
      ≤ ((-469/500 : ℝ) : WithBot ℝ) := hleft
    _ < ((0 : ℝ) : WithBot ℝ) := by
        rw [WithBot.coe_lt_coe]
        norm_num
    _ ≤ best_score ((sort_by_score ev0).take SEARCH_BEAM_WIDTH) := hright

end Opti

namespace Forecast

/- Embedding of BayesianTrendForecaster
(services/probabilistic/bayesian_forecaster.py).  A feature map is a list of
(name, value) pairs, the shallow image of the Python dict: weights default to
0 for unknown names and dict lookups default missing keys, exactly as the
code does.  The volatility aggregate, entropy-based uncertainty, expected
move and explanation string are explanatory outputs not referenced by any
claim and are omitted. -/

def prior_up : ℝ := 0.40

def prior_down : ℝ := 0.40

def prior_neutral : ℝ := 0.20

/- _initialize_feature_weights, as a total function defaulting to 0
(self.feature_weights.get(name, 0.0)). -/
def feature_weights : String → ℝ
  | "price_change_1" => 2.0
  | "price_change_5" => 1.5
  | "price_change_10" => 1.0
  | "price_std" => -0.3
  | "price_range" => -0.2
  | "momentum_ratio" => 2.5
  | "momentum_strength" => 2.0
  | "consecutive_ups" => 1.5
  | "consecutive_downs" => -1.5
  | "volatility_short" => -0.5
  | "volatility_medium" => -0.3
  | "volatility_long" => -0.2
  | "avg_true_range" => -0.3
  | "volatility_trend" => -0.4
  | "rsi" => 0.5
  | "rsi_normalized" => 1.0
  | "sma_cross" => 1.5
  | "sma_trend" => 1.2
  | "atr_normalized" => -0.3
  | "volume_ratio" => 0.5
  | "volume_trend" => 0.3
  | _ => 0

/- 'down' in name.lower(). -/
def name_contains_down (s : String) : Bool :=
  (s.toLower.splitOn ("down")).length != 1

noncomputable def calculate_likelihood_up
    (features : List (String × ℝ)) : ℝ :=
  let score := features.foldl (fun acc p => acc + feature_weights p.1 * p.2) 0
  1 / (1 + Real.exp (-score))

noncomputable def calculate_likelihood_down
    (features : List (String × ℝ)) : ℝ :=
  let flipped := features.map
    (fun p => (p.1, if name_contains_down p.1 then p.2 else -p.2))
  let score := flipped.foldl (fun acc p => acc + feature_weights p.1 * p.2) 0
  1 / (1 + Real.exp (-score))

/- features.get(name, dflt). -/
def get_feature (features : List (String × ℝ)) (name : String)
    (dflt : ℝ) : ℝ :=
  (features.lookup name).getD dflt

noncomputable def calculate_likelihood_neutral
    (features : List (String × ℝ)) : ℝ :=
  let momentum_strength := |get_feature features ("momentum_strength") 0|
  let volatility := get_feature features ("volatility_medium") 0
  let rsi_neutral := 1 - |get_feature features ("rsi_normalized") 0|
  let neutral_score :=
    (1 - momentum_strength) * rsi_neutral * (1 - volatility * 10)
  max 0 (min 1 neutral_score)

/- _calculate_posteriors, with the prior fallback for a non-positive
normalizer. -/
noncomputable def calculate_posteriors
    (likelihood_up likelihood_down likelihood_neutral : ℝ) : ℝ × ℝ × ℝ :=
  let posterior_up := likelihood_up * prior_up
  let posterior_down := likelihood_down * prior_down
  let posterior_neutral := likelihood_neutral * prior_neutral
  let total := posterior_up + posterior_down + posterior_neutral
  if total > 0 then
    (posterior_up / total, posterior_down / total, posterior_neutral / total)
  else
    (prior_up, prior_down, prior_neutral)

/- _determine_trend: first maximal value wins in the order up, down,
neutral. -/
noncomputable def determine_trend (prob_up prob_down prob_neutral : ℝ) :
    String :=
  let max_prob := max prob_up (max prob_down prob_neutral)
  if max_prob = prob_up then "bullish"
  else if max_prob = prob_down then "bearish"
  else "neutral"

structure ForecastOutput where
  probability_up : ℝ
  probability_down : ℝ
  probability_neutral : ℝ
  direction : String
  confidence : ℝ

/- The claim-relevant part of forecast(): likelihoods, posteriors, trend
direction, confidence = maximal posterior. -/
noncomputable def forecast_from_features
    (features : List (String × ℝ)) : ForecastOutput :=
  let lu := calculate_likelihood_up features
  let ld := calculate_likelihood_down features
  let ln := calculate_likelihood_neutral features
  let p := calculate_posteriors lu ld ln
  { probability_up := p.1
    probability_down := p.2.1
    probability_neutral := p.2.2
    direction := determine_trend p.1 p.2.1 p.2.2
    confidence := max p.1 (max p.2.1 p.2.2) }

lemma one_div_one_add_exp_pos (t : ℝ) : 0 < 1 / (1 + Real.exp t) := by
  positivity

lemma one_div_one_add_exp_le_one (t : ℝ) : 1 / (1 + Real.exp t) ≤ 1 := by
  rw [div_le_one (by positivity)]
  linarith [Real.exp_pos t]

lemma likelihood_up_pos (features : List (String × ℝ)) :
    0 < calculate_likelihood_up features :=
  one_div_one_add_exp_pos _

lemma likelihood_up_le_one (features : List (String × ℝ)) :
    calculate_likelihood_up features ≤ 1 :=
  one_div_one_add_exp_le_one _

lemma likelihood_down_pos (features : List (String × ℝ)) :
    0 < calculate_likelihood_down features :=
  one_div_one_add_exp_pos _

lemma likelihood_neutral_nonneg (features : List (String × ℝ)) :
    0 ≤ calculate_likelihood_neutral features :=
  le_max_left 0 _

lemma likelihood_neutral_le_one (features : List (String × ℝ)) :
    calculate_likelihood_neutral features ≤ 1 :=
  max_le zero_le_one (min_le_left 1 _)

lemma posterior_total_pos (features : List (String × ℝ)) :
    0 < calculate_likelihood_up features * prior_up +
        calculate_likelihood_down features * prior_down +
        calculate_likelihood_neutral features * prior_neutral := by
  have h1 := likelihood_up_pos features
  have h2 := likelihood_down_pos features
  have h3 := likelihood_neutral_nonneg features
  unfold prior_up prior_down prior_neutral
  nlinarith

/-- C10: the prior-fallback branch of _calculate_posteriors is unreachable
from the forecaster: likelihood_up is a sigmoid and hence strictly positive,
the up prior 0.40 is positive, and the other prior-weighted likelihoods are
nonnegative, so the normalizer is strictly positive and the posteriors are
always the normalized values, never the raw priors. -/
theorem posterior_fallback_unreachable (features : List (String × ℝ)) :
    0 < calculate_likelihood_up features * prior_up +
        calculate_likelihood_down features * prior_down +
        calculate_likelihood_neutral features * prior_neutral ∧
    calculate_posteriors (calculate_likelihood_up features)
        (calculate_likelihood_down features)
        (calculate_likelihood_neutral features) =
      (calculate_likelihood_up features * prior_up /
          (calculate_likelihood_up features * prior_up +
           calculate_likelihood_down features * prior_down +
           calculate_likelihood_neutral features * prior_neutral),
       calculate_likelihood_down features * prior_down /
          (calculate_likelihood_up features * prior_up +
           calculate_likelihood_down features * prior_down +
           calculate_likelihood_neutral features * prior_neutral),
       calculate_likelihood_neutral features * prior_neutral /
          (calculate_likelihood_up features * prior_up +
           calculate_likelihood_down features * prior_down +
           calculate_likelihood_neutral features * prior_neutral)) := by
  refine ⟨posterior_total_pos features, ?_⟩
  unfold calculate_posteriors
  rw [if_pos (posterior_total_pos features)]

/-- C6: for every feature map, the three posterior probabilities returned by
the forecaster are each in [0, 1] and their sum is within 1e-6 of 1 (here:
exactly 1). -/
theorem forecast_probabilities_form_distribution
    (features : List (String × ℝ)) :
    (0 ≤ (forecast_from_features features).probability_up ∧
      (forecast_from_features features).probability_up ≤ 1) ∧
    (0 ≤ (forecast_from_features features).probability_down ∧
      (forecast_from_features features).probability_down ≤ 1) ∧
    (0 ≤ (forecast_from_features features).probability_neutral ∧
      (forecast_from_features features).probability_neutral ≤ 1) ∧
    |(forecast_from_features features).probability_up +
        (forecast_from_features features).probability_down +
        (forecast_from_features features).probability_neutral - 1|
      ≤ 1/1000000 := by
  have hup := likelihood_up_pos features
  have hup1 := likelihood_up_le_one features
  have hdn := likelihood_down_pos features
  have hdn1 : calculate_likelihood_down features ≤ 1 :=
    one_div_one_add_exp_le_one _
  have hne := likelihood_neutral_nonneg features
  have hne1 := likelihood_neutral_le_one features
  have htot := posterior_total_pos features
  have hpost := (posterior_fallback_unreachable features).2
  unfold forecast_from_features
  dsimp only
  rw [hpost]
  dsimp only
  unfold prior_up prior_down prior_neutral at htot ⊢
  constructor
  · constructor
    · positivity
    · rw [div_le_one htot]
      nlinarith
  constructor
  · constructor
    · positivity
    · rw [div_le_one htot]
      nlinarith
  constructor
  · constructor
    · positivity
    · rw [div_le_one htot]
      nlinarith
  · rw [div_add_div_same, div_add_div_same, div_self (ne_of_gt htot)]
    norm_num

/-- C7: the direction returned by the forecaster is the argmax of the three
posteriors under the fixed tie-break order up, down, neutral: it is
"bullish" iff probability_up attains the maximum, otherwise "bearish" iff
probability_down attains the maximum, and "neutral" otherwise. -/
theorem forecast_direction_is_argmax (features : List (String × ℝ)) :
    ((forecast_from_features features).direction = "bullish" ↔
      max (forecast_from_features features).probability_up
          (max (forecast_from_features features).probability_down
            (forecast_from_features features).probability_neutral) =
        (forecast_from_features features).probability_up) ∧
    ((forecast_from_features features).direction = "bearish" ↔
      (¬ max (forecast_from_features features).probability_up
          (max (forecast_from_features features).probability_down
            (forecast_from_features features).probability_neutral) =
        (forecast_from_features features).probability_up ∧
       max (forecast_from_features features).probability_up
          (max (forecast_from_features features).probability_down
            (forecast_from_features features).probability_neutral) =
        (forecast_from_features features).probability_down)) ∧
    ((forecast_from_features features).direction = "neutral" ↔
      (¬ max (forecast_from_features features).probability_up
          (max (forecast_from_features features).probability_down
            (forecast_from_features features).probability_neutral) =
        (forecast_from_features features).probability_up ∧
       ¬ max (forecast_from_features features).probability_up
          (max (forecast_from_features features).probability_down
            (forecast_from_features features).probability_neutral) =
        (forecast_from_features features).probability_down)) := by
  unfold forecast_from_features determine_trend
  dsimp only
  split_ifs with h1 h2 <;>
    refine ⟨?_, ?_, ?_⟩ <;>
      simp_all

end Forecast

namespace Features

/- Embedding of the FeatureExtractor ratio guards
(services/probabilistic/feature_extraction.py).  Only the features named by
the zero-denominator property are embedded; the volatility features need
np.std (a square root) and are not referenced by it. -/

/- np.mean of a rational list (callers pass nonempty windows). -/
def mean (l : List ℚ) : ℚ := l.sum / l.length

/- _extract_volume_features: (volume_ratio, volume_trend).
volumes[-5:] is the last five entries; volumes[-1] the last entry (the
window is nonempty in every call, so getLast?.getD 0 is exact). -/
def extract_volume_features (volumes : List ℚ) : ℚ × ℚ :=
  let avg_volume := mean volumes
  let recent_volume :=
    if volumes.length ≥ 5 then mean (volumes.drop (volumes.length - 5))
    else avg_volume
  let ratio_value := if avg_volume > 0 then recent_volume / avg_volume else 1
  let trend_value :=
    if avg_volume > 0 then ((volumes.getLast?.getD 0) - avg_volume) / avg_volume
    else 0
  (ratio_value, trend_value)

/- np.diff(closes) / closes[:-1]. -/
def py_returns (closes : List ℚ) : List ℚ :=
  (closes.zip closes.tail).map (fun p => (p.2 - p.1) / p.1)

/- The momentum_ratio feature of _extract_momentum_features. -/
def momentum_ratio_feature (closes : List ℚ) : ℚ :=
  let returns := py_returns closes
  let positive_days := (returns.filter (fun r => decide (0 < r))).length
  let total_days := returns.length
  if total_days > 0 then (positive_days : ℚ) / (total_days : ℚ) else 1/2

/- The three indicator ratios of _extract_indicator_features carry no zero
guard in the source: a zero denominator raises ZeroDivisionError.  The
fallible division is embedded with Option (none = the exception). -/
def sma_cross (current_price sma_20 : ℚ) : Option ℚ :=
  if sma_20 = 0 then none else some ((current_price - sma_20) / sma_20)

def sma_trend (sma_20 sma_50 : ℚ) : Option ℚ :=
  if sma_50 = 0 then none else some ((sma_20 - sma_50) / sma_50)

def atr_normalized (atr current_price : ℚ) : Option ℚ :=
  if current_price = 0 then none else some (atr / current_price)

/-- C8 counterexample: with an all-zero volume window (mean volume 0), the
volume_ratio feature evaluates to 1, not 0, refuting "every ratio feature
whose denominator is zero evaluates to 0". -/
theorem volume_ratio_zero_denominator_is_one :
    (extract_volume_features [0, 0, 0]).1 = 1 ∧
    (extract_volume_features [0, 0, 0]).1 ≠ 0 := by
  have h : (extract_volume_features [0, 0, 0]).1 = 1 := by
    unfold extract_volume_features mean
    norm_num
  exact ⟨h, by rw [h]; norm_num⟩

/-- C8 (amended): the zero-denominator defaults are feature-specific, not
uniformly 0: volume_trend defaults to 0 when the window's mean volume is not
positive, but volume_ratio defaults to 1.0, momentum_ratio defaults to 0.5
when there are no returns, and the sma_cross / sma_trend / atr_normalized
ratios are unguarded (a zero denominator raises instead of returning a
default). -/
theorem feature_zero_denominator_defaults :
    (∀ volumes : List ℚ, ¬ (0 < mean volumes) →
      (extract_volume_features volumes).2 = 0 ∧
      (extract_volume_features volumes).1 = 1) ∧
    (∀ closes : List ℚ, py_returns closes = [] →
      momentum_ratio_feature closes = 1/2) ∧
    (∀ p : ℚ, sma_cross p 0 = none) ∧
    (∀ v : ℚ, sma_trend v 0 = none) ∧
    (∀ a : ℚ, atr_normalized a 0 = none) := by
  refine ⟨?_, ?_, ?_, ?_, ?_⟩
  · intro volumes hm
    unfold extract_volume_features
    dsimp only
    rw [if_neg hm, if_neg hm]
    exact ⟨rfl, rfl⟩
  · intro closes hr
    unfold momentum_ratio_feature
    rw [hr]
    norm_num
  · intro p
    unfold sma_cross
    rw [if_pos rfl]
  · intro v
    unfold sma_trend
    rw [if_pos rfl]
  · intro a
    unfold atr_normalized
    rw [if_pos rfl]

/-- Witness for the amended C8 at concrete inputs. -/
theorem feature_zero_denominator_defaults_witness :
    ¬ (0 < mean [0, 0, 0]) ∧
    (extract_volume_features [0, 0, 0]).2 = 0 ∧
    (extract_volume_features [0, 0, 0]).1 = 1 ∧
    py_returns [1] = [] ∧
    momentum_ratio_feature [1] = 1/2 ∧
    sma_cross 1 0 = none ∧
    sma_trend 1 0 = none ∧
    atr_normalized 1 0 = none := by
  have hm : ¬ (0 < mean [0, 0, 0]) := by
    unfold mean
    norm_num
  have hr : py_returns [1] = [] := rfl
  exact ⟨hm,
    (feature_zero_denominator_defaults.1 [0, 0, 0] hm).1,
    (feature_zero_denominator_defaults.1 [0, 0, 0] hm).2,
    hr,
    feature_zero_denominator_defaults.2.1 [1] hr,
    feature_zero_denominator_defaults.2.2.1 1,
    feature_zero_denominator_defaults.2.2.2.1 1,
    feature_zero_denominator_defaults.2.2.2.2 1⟩

end Features
